import Mathlib

/-!
Verification model of `src/services/excel-converter.ts` (second revision,
lines 246-420: the fixed Romanian 18-column schema converter), together with
the parts of its library environment (`date-fns` parsing, `xlsx` sheet
building, JavaScript string/number coercions) that the converter exercises.

Modelling conventions:
* JavaScript numbers are modelled as exact rationals plus `NaN`/`Infinity`
  tags (`JsNum`); IEEE-754 rounding is not modelled (no claim depends on it).
* JavaScript `Date` objects are modelled by their civil components plus the
  second-of-day (`JsDate`); only components the converter reads are kept.
* `date-fns` `parse` is modelled per concrete format string used by the code;
  every component of those formats is specified, and each numeric setter of
  `date-fns` zeroes the units below it, so the reference date passed by the
  code (`new Date()`) never influences the result.  The reference date is
  still threaded through the model to state determinism claims.
-/

namespace RadioDJ

/-- JavaScript whitespace as trimmed by `String.prototype.trim` and by
`Number(string)` coercion (ASCII whitespace, NBSP, BOM, line separators). -/
def isJsSpace (c : Char) : Bool :=
  c = ' ' || c = '\t' || c = '\n' || c = '\r' || c = '\x0b' || c = '\x0c' ||
  c = ' ' || c = '﻿' || c = ' ' || c = ' '

/-- JavaScript `String.prototype.trim`. -/
def jsTrim (s : String) : String :=
  ((((s.toList.dropWhile isJsSpace).reverse).dropWhile isJsSpace).reverse).asString

/-- JavaScript `String.prototype.toLowerCase`, restricted to the ASCII range
(the only characters the converter compares case-insensitively). -/
def jsToLower (s : String) : String :=
  (s.toList.map Char.toLower).asString

/-- JavaScript `String.prototype.split` with a single-character separator
(total: an empty input yields one empty field, like JS `"".split(x) = [""]`). -/
def splitOnChar (sep : Char) : List Char → List (List Char)
  | [] => [[]]
  | c :: rest =>
    match splitOnChar sep rest with
    | [] => [[]]
    | g :: gs => if c = sep then [] :: g :: gs else (c :: g) :: gs

/-- `String`-level wrapper for `splitOnChar`. -/
def jsStrSplit (sep : Char) (s : String) : List String :=
  (splitOnChar sep s.toList).map List.asString

/-- A JavaScript number: `NaN`, the two infinities, or a finite value
(modelled as an exact rational). -/
inductive JsNum where
  | nan
  | inf
  | ninf
  | val (q : ℚ)
deriving DecidableEq, Repr

/-- JavaScript `isNaN` on an already-converted number. -/
def JsNum.isNaN : JsNum → Bool
  | .nan => true
  | _ => false

/-- JavaScript `+` on numbers (only the cases reachable from the converter:
`Infinity + -Infinity = NaN`, infinities absorb finite values).  Finite
values add exactly; IEEE-754 rounding and overflow of finite doubles to
`Infinity` are not modelled, and no theorem below relies on the finiteness
or integrality of these exact sums. -/
def jsAdd : JsNum → JsNum → JsNum
  | .nan, _ => .nan
  | _, .nan => .nan
  | .inf, .ninf => .nan
  | .ninf, .inf => .nan
  | .inf, _ => .inf
  | _, .inf => .inf
  | .ninf, _ => .ninf
  | _, .ninf => .ninf
  | .val a, .val b => .val (a + b)

/-- JavaScript `*` on numbers (`Infinity * 0 = NaN`, sign rules otherwise).
Finite values multiply exactly; overflow of finite doubles to `Infinity`
(e.g. `1e308 * 60`) is not modelled, and no theorem below relies on the
finiteness or integrality of these exact products. -/
def jsMul : JsNum → JsNum → JsNum
  | .nan, _ => .nan
  | _, .nan => .nan
  | .inf, .inf => .inf
  | .inf, .ninf => .ninf
  | .ninf, .inf => .ninf
  | .ninf, .ninf => .inf
  | .inf, .val b => if b = 0 then .nan else if 0 < b then .inf else .ninf
  | .val a, .inf => if a = 0 then .nan else if 0 < a then .inf else .ninf
  | .ninf, .val b => if b = 0 then .nan else if 0 < b then .ninf else .inf
  | .val a, .ninf => if a = 0 then .nan else if 0 < a then .ninf else .inf
  | .val a, .val b => .val (a * b)

/-- Numeric value of a list of decimal digit characters. -/
def digitsToNat (ds : List Char) : Nat :=
  ds.foldl (fun a c => a * 10 + (c.toNat - 48)) 0

/-- Hexadecimal digit test. -/
def isHexDigit (c : Char) : Bool :=
  c.isDigit || ('a' ≤ c && c ≤ 'f') || ('A' ≤ c && c ≤ 'F')

/-- Value of one hexadecimal digit. -/
def hexDigitVal (c : Char) : Nat :=
  if c.isDigit then c.toNat - 48
  else if 'a' ≤ c && c ≤ 'f' then c.toNat - 87
  else c.toNat - 55

/-- Numeric value of a list of hexadecimal digit characters. -/
def hexDigitsToNat (ds : List Char) : Nat :=
  ds.foldl (fun a c => a * 16 + hexDigitVal c) 0

/-- Numeric value of a list of digits in base `b` (used for `0o`/`0b`). -/
def baseDigitsToNat (b : Nat) (ds : List Char) : Nat :=
  ds.foldl (fun a c => a * b + (c.toNat - 48)) 0

/-- The JS `StrUnsignedDecimalLiteral` grammar without the `Infinity`
alternative: `digits [. digits] [exp]` or `. digits [exp]`, entire list
consumed.  Returns the exact rational value. -/
def parseDecCore (cs : List Char) : Option ℚ :=
  let ip := cs.takeWhile Char.isDigit
  let r1 := cs.dropWhile Char.isDigit
  let (fp, r2) :=
    match r1 with
    | '.' :: r => (r.takeWhile Char.isDigit, r.dropWhile Char.isDigit)
    | _ => ([], r1)
  if ip = [] ∧ fp = [] then none
  else
    let mant : ℚ := (digitsToNat ip : ℚ) + (digitsToNat fp : ℚ) / (10 ^ fp.length)
    match r2 with
    | [] => some mant
    | e :: r3 =>
      if e = 'e' ∨ e = 'E' then
        let (esign, r4) :=
          match r3 with
          | '+' :: r => ((1 : ℤ), r)
          | '-' :: r => ((-1 : ℤ), r)
          | r => ((1 : ℤ), r)
        if r4 ≠ [] ∧ r4.all Char.isDigit then
          some (mant * (10 : ℚ) ^ (esign * (digitsToNat r4 : ℤ)))
        else none
      else none

/-- Signed decimal / `Infinity` part of `Number(string)`. -/
def parseSignedDec (cs : List Char) : JsNum :=
  let (sign, r) :=
    match cs with
    | '+' :: r => ((1 : ℤ), r)
    | '-' :: r => ((-1 : ℤ), r)
    | r => ((1 : ℤ), r)
  if r = "Infinity".toList then (if sign = 1 then .inf else .ninf)
  else
    match parseDecCore r with
    | some q => .val ((sign : ℚ) * q)
    | none => .nan

/-- JavaScript `Number(string)` coercion: trim JS whitespace; empty string is
`0`; `0x`/`0o`/`0b` radix literals; otherwise an optionally signed decimal
literal or `Infinity`; anything else is `NaN`.  Values are exact unbounded
rationals: IEEE-754 rounding and overflow of large literals to `Infinity`
(e.g. `Number('1e400')`) are not modelled — `inf`/`ninf` arise only from a
literal `Infinity` — and no theorem below relies on the finiteness,
rounding or integrality of these exact values. -/
def jsNumber (s : String) : JsNum :=
  let cs := (jsTrim s).toList
  if cs = [] then .val 0
  else
    match cs with
    | '0' :: x :: rest =>
      if x = 'x' ∨ x = 'X' then
        if rest ≠ [] ∧ rest.all isHexDigit then .val (hexDigitsToNat rest) else .nan
      else if x = 'o' ∨ x = 'O' then
        if rest ≠ [] ∧ rest.all (fun c => '0' ≤ c && c ≤ '7') then
          .val (baseDigitsToNat 8 rest) else .nan
      else if x = 'b' ∨ x = 'B' then
        if rest ≠ [] ∧ rest.all (fun c => c = '0' ∨ c = '1') then
          .val (baseDigitsToNat 2 rest) else .nan
      else parseSignedDec cs
    | _ => parseSignedDec cs

/-- A JavaScript `Date`, reduced to the components the converter reads:
civil year/month/day (month is 1-based here; JS `getMonth()` is `month - 1`)
and the second of the day (`getHours/getMinutes/getSeconds`). -/
structure JsDate where
  year : Int
  month : Nat
  day : Nat
  secOfDay : Nat
deriving DecidableEq, Repr

/-- JS `getHours()`. -/
def getHoursJ (d : JsDate) : Nat := d.secOfDay / 3600

/-- JS `getMinutes()`. -/
def getMinutesJ (d : JsDate) : Nat := d.secOfDay % 3600 / 60

/-- JS `getSeconds()`. -/
def getSecondsJ (d : JsDate) : Nat := d.secOfDay % 60

/-- Leap-year test of the proleptic Gregorian calendar (as used by JS `Date`
and by `date-fns` day-of-month validation). -/
def isLeapYear (y : Int) : Bool :=
  (y % 4 = 0 && y % 100 ≠ 0) || y % 400 = 0

/-- Days in a civil month (1-based month). -/
def daysInMonth (y : Int) (m : Nat) : Nat :=
  if m = 2 then (if isLeapYear y then 29 else 28)
  else if m = 4 ∨ m = 6 ∨ m = 9 ∨ m = 11 then 30
  else 31

/-- Day count of a civil date from 1970-01-01 (the value
`Date.UTC(y, m-1, d) / 86400000` computes); standard civil-from-days
algorithm. -/
def daysFromCivil (y : Int) (m : Nat) (d : Nat) : Int :=
  let y' : Int := if m ≤ 2 then y - 1 else y
  let era : Int := (if 0 ≤ y' then y' else y' - 399) / 400
  let yoe : Int := y' - era * 400
  let mp : Nat := (m + 9) % 12
  let doy : Int := (153 * (mp : Int) + 2) / 5 + (d : Int) - 1
  let doe : Int := yoe * 365 + yoe / 4 - yoe / 100 + doy
  era * 146097 + doe - 719468

/-- The spreadsheet date serial the converter computes:
`(Date.UTC(getFullYear, getMonth, getDate) - Date.UTC(1899, 11, 30)) / 86400000`,
i.e. whole days since the civil date 1899-12-30. -/
def dateSerialOf (d : JsDate) : ℚ :=
  ((daysFromCivil d.year d.month d.day - daysFromCivil 1899 12 30 : Int) : ℚ)

/-- The spreadsheet time serial the converter computes:
`(getHours*3600 + getMinutes*60 + getSeconds) / 86400`. -/
def timeSerialOf (d : JsDate) : ℚ :=
  (((getHoursJ d * 3600 + getMinutesJ d * 60 + getSecondsJ d : Nat) : ℚ)) / 86400

/-!
### `date-fns` `parse` model

The converter uses `parse` only with the format strings
`'M/d/yyyy' 'MM/dd/yyyy' 'yyyy-MM-dd' 'dd.MM.yyyy' 'd.M.yyyy'` (dates) and
`` `yyyy-MM-dd ${fmt}` `` for `fmt` among
`'h:mm:ss a' 'hh:mm:ss a' 'H:mm:ss' 'HH:mm:ss' 'h:mm a' 'H:mm'`` (times).

In `date-fns` v2 each numeric token consumes greedily between 1 and `n`
digits (`parseNDigits`) and is then range-validated (months 1-12, days
1..daysInMonth, hours12 1-12, hours23 0-23, minutes/seconds 0-59, years > 0);
single-letter tokens (`M`, `d`, `h`, `H`) use anchored range regexes instead,
which — because every such token is followed by a literal separator in these
formats — accept exactly the same strings as greedy capture plus validation.
The whole input must be consumed or the parse is invalid.  Every setter
zeroes the time units below it, so the reference date contributes nothing
once year/month/day (or the fixed `1970-01-01` prefix) are given; the
`_ref` parameters below record that fact.

For the `a` token the en-US locale matcher accepts (case-insensitively)
`[ap]\.?\s?m\.?`, `midnight` and `noon`; the phrase day periods
("in the morning" etc.) of the locale are not modelled.
-/

/-- Consume greedily up to `k` digits (at least one) and return their value. -/
def takeDigits (k : Nat) (cs : List Char) : Option (Nat × List Char) :=
  let ds := (cs.takeWhile Char.isDigit).take k
  if ds = [] then none else some (digitsToNat ds, cs.drop ds.length)

/-- Consume one expected literal character. -/
def lit (c : Char) : List Char → Option (List Char)
  | x :: rest => if x = c then some rest else none
  | [] => none

/-- `date-fns` parse for the shape `M/d/yyyy` (also `MM/dd/yyyy`): month,
day, up-to-4-digit year, with range validation; result at midnight. -/
def parseDate_MdY (s : String) : Option JsDate :=
  match takeDigits 2 s.toList with
  | none => none
  | some (mo, r1) =>
    match lit '/' r1 with
    | none => none
    | some r2 =>
      match takeDigits 2 r2 with
      | none => none
      | some (da, r3) =>
        match lit '/' r3 with
        | none => none
        | some r4 =>
          match takeDigits 4 r4 with
          | none => none
          | some (yr, r5) =>
            if r5 = [] ∧ 0 < yr ∧ 1 ≤ mo ∧ mo ≤ 12 ∧ 1 ≤ da ∧
                da ≤ daysInMonth (yr : Int) mo then
              some ⟨(yr : Int), mo, da, 0⟩
            else none

/-- `date-fns` parse for the shape `yyyy-MM-dd`. -/
def parseDate_ymd (s : String) : Option JsDate :=
  match takeDigits 4 s.toList with
  | none => none
  | some (yr, r1) =>
    match lit '-' r1 with
    | none => none
    | some r2 =>
      match takeDigits 2 r2 with
      | none => none
      | some (mo, r3) =>
        match lit '-' r3 with
        | none => none
        | some r4 =>
          match takeDigits 2 r4 with
          | none => none
          | some (da, r5) =>
            if r5 = [] ∧ 0 < yr ∧ 1 ≤ mo ∧ mo ≤ 12 ∧ 1 ≤ da ∧
                da ≤ daysInMonth (yr : Int) mo then
              some ⟨(yr : Int), mo, da, 0⟩
            else none

/-- `date-fns` parse for the shape `dd.MM.yyyy` (also `d.M.yyyy`). -/
def parseDate_dMy (s : String) : Option JsDate :=
  match takeDigits 2 s.toList with
  | none => none
  | some (da, r1) =>
    match lit '.' r1 with
    | none => none
    | some r2 =>
      match takeDigits 2 r2 with
      | none => none
      | some (mo, r3) =>
        match lit '.' r3 with
        | none => none
        | some r4 =>
          match takeDigits 4 r4 with
          | none => none
          | some (yr, r5) =>
            if r5 = [] ∧ 0 < yr ∧ 1 ≤ mo ∧ mo ≤ 12 ∧ 1 ≤ da ∧
                da ≤ daysInMonth (yr : Int) mo then
              some ⟨(yr : Int), mo, da, 0⟩
            else none

/-- The five date formats tried by the converter, in source order
`['M/d/yyyy','MM/dd/yyyy','yyyy-MM-dd','dd.MM.yyyy','d.M.yyyy']`
(the first two resp. last two formats parse identically, see above). -/
def dateFmtFns : List (String → Option JsDate) :=
  [parseDate_MdY, parseDate_MdY, parseDate_ymd, parseDate_dMy, parseDate_dMy]

/-- The converter's date-format loop: take the first format whose parse is
valid AND whose year exceeds 1900; formats whose parse succeeds with year
≤ 1900 are skipped and the loop continues. -/
def datePick : List (String → Option JsDate) → String → Option JsDate
  | [], _ => none
  | p :: ps, s =>
    match p s with
    | some d => if 1900 < d.year then some d else datePick ps s
    | none => datePick ps s

/-- `resolveDate ref s` models the date-format loop of the converter applied
to the date substring `s` with reference date `ref` (`new Date()` in the
source; unused because every component is parsed from `s`). -/
def resolveDate (_ref : JsDate) (s : String) : Option JsDate :=
  datePick dateFmtFns s

/-- Day-period values matched by the `a` token. -/
inductive DayPeriod where
  | am
  | pm
  | midnight
  | noon
deriving DecidableEq, Repr

/-- en-US day-period matcher (`'any'` width): case-insensitive
`[ap]\.?\s?m\.?`, `midnight` or `noon`; returns the period and the rest. -/
def parseDayPeriod (cs : List Char) : Option (DayPeriod × List Char) :=
  let l := cs.map Char.toLower
  match l with
  | 'a' :: r => (matchAmPm r).map (fun n => (DayPeriod.am, cs.drop (1 + n)))
  | 'p' :: r => (matchAmPm r).map (fun n => (DayPeriod.pm, cs.drop (1 + n)))
  | _ =>
    if l.take 8 = "midnight".toList then some (.midnight, cs.drop 8)
    else if l.take 4 = "noon".toList then some (.noon, cs.drop 4)
    else none
where
  /-- After the initial `a`/`p`: `\.?\s?m\.?`; returns the number of
  characters consumed. -/
  matchAmPm (r : List Char) : Option Nat :=
    let (n1, r1) := match r with
                    | '.' :: t => (1, t)
                    | _ => (0, r)
    let (n2, r2) := match r1 with
                    | c :: t => if isJsSpace c then (n1 + 1, t) else (n1, r1)
                    | [] => (n1, r1)
    match r2 with
    | 'm' :: '.' :: _ => some (n2 + 2)
    | 'm' :: _ => some (n2 + 1)
    | _ => none

/-- Resulting 24h hour from a 1-12 hour and a day period (`date-fns` sets the
day-period hours first, then adjusts the 1-12 hour against it). -/
def hour24Of (dp : DayPeriod) (h : Nat) : Nat :=
  let isPM : Bool := dp = .pm ∨ dp = .noon
  if isPM then (if h < 12 then h + 12 else h)
  else (if h = 12 then 0 else h)

/-- `date-fns` parse of `` `1970-01-01 ${s}` `` against
`'yyyy-MM-dd h:mm:ss a'` (also `'hh:mm:ss a'`): the constant date prefix
always matches, so only the time tokens are modelled. -/
def parseTime_hmmss_a (s : String) : Option JsDate :=
  match takeDigits 2 s.toList with
  | none => none
  | some (h, r1) =>
    match lit ':' r1 with
    | none => none
    | some r2 =>
      match takeDigits 2 r2 with
      | none => none
      | some (mi, r3) =>
        match lit ':' r3 with
        | none => none
        | some r4 =>
          match takeDigits 2 r4 with
          | none => none
          | some (se, r5) =>
            match lit ' ' r5 with
            | none => none
            | some r6 =>
              match parseDayPeriod r6 with
              | none => none
              | some (dp, r7) =>
                if r7 = [] ∧ 1 ≤ h ∧ h ≤ 12 ∧ mi ≤ 59 ∧ se ≤ 59 then
                  some ⟨1970, 1, 1, hour24Of dp h * 3600 + mi * 60 + se⟩
                else none

/-- `date-fns` parse of `` `1970-01-01 ${s}` `` against `'yyyy-MM-dd H:mm:ss'`
(also `'HH:mm:ss'`). -/
def parseTime_Hmmss (s : String) : Option JsDate :=
  match takeDigits 2 s.toList with
  | none => none
  | some (h, r1) =>
    match lit ':' r1 with
    | none => none
    | some r2 =>
      match takeDigits 2 r2 with
      | none => none
      | some (mi, r3) =>
        match lit ':' r3 with
        | none => none
        | some r4 =>
          match takeDigits 2 r4 with
          | none => none
          | some (se, r5) =>
            if r5 = [] ∧ h ≤ 23 ∧ mi ≤ 59 ∧ se ≤ 59 then
              some ⟨1970, 1, 1, h * 3600 + mi * 60 + se⟩
            else none

/-- `date-fns` parse of `` `1970-01-01 ${s}` `` against `'yyyy-MM-dd h:mm a'`
(seconds zeroed by the minute setter). -/
def parseTime_hmm_a (s : String) : Option JsDate :=
  match takeDigits 2 s.toList with
  | none => none
  | some (h, r1) =>
    match lit ':' r1 with
    | none => none
    | some r2 =>
      match takeDigits 2 r2 with
      | none => none
      | some (mi, r3) =>
        match lit ' ' r3 with
        | none => none
        | some r4 =>
          match parseDayPeriod r4 with
          | none => none
          | some (dp, r5) =>
            if r5 = [] ∧ 1 ≤ h ∧ h ≤ 12 ∧ mi ≤ 59 then
              some ⟨1970, 1, 1, hour24Of dp h * 3600 + mi * 60⟩
            else none

/-- `date-fns` parse of `` `1970-01-01 ${s}` `` against `'yyyy-MM-dd H:mm'`. -/
def parseTime_Hmm (s : String) : Option JsDate :=
  match takeDigits 2 s.toList with
  | none => none
  | some (h, r1) =>
    match lit ':' r1 with
    | none => none
    | some r2 =>
      match takeDigits 2 r2 with
      | none => none
      | some (mi, r3) =>
        if r3 = [] ∧ h ≤ 23 ∧ mi ≤ 59 then
          some ⟨1970, 1, 1, h * 3600 + mi * 60⟩
        else none

/-- The six time formats tried by the converter, in source order
`['h:mm:ss a','hh:mm:ss a','H:mm:ss','HH:mm:ss','h:mm a','H:mm']`. -/
def timeFmtFns : List (String → Option JsDate) :=
  [parseTime_hmmss_a, parseTime_hmmss_a, parseTime_Hmmss, parseTime_Hmmss,
   parseTime_hmm_a, parseTime_Hmm]

/-- The converter's time-format loop: the first valid parse wins. -/
def strictTime (s : String) : Option JsDate :=
  timeFmtFns.findSome? (fun p => p s)

/-- The loose fallback regex `/^\d{1,2}:\d{1,2}(:\d{1,2})?$/`: two or three
colon-separated groups of one or two digits. -/
def looseTime (s : String) : Option (Nat × Nat × Nat) :=
  let gs := splitOnChar ':' s.toList
  let ok (g : List Char) : Bool := g ≠ [] && g.length ≤ 2 && g.all Char.isDigit
  match gs with
  | [g1, g2] =>
    if ok g1 && ok g2 then some (digitsToNat g1, digitsToNat g2, 0) else none
  | [g1, g2, g3] =>
    if ok g1 && ok g2 && ok g3 then
      some (digitsToNat g1, digitsToNat g2, digitsToNat g3)
    else none
  | _ => none

/-- `new Date(1970, 0, 1)` followed by `setHours(h, m, s, 0)`: JS rolls
overflowing components over into the following days. -/
def manualTime (h m s : Nat) : JsDate :=
  let tot := h * 3600 + m * 60 + s
  ⟨1970, 1, 1 + tot / 86400, tot % 86400⟩

/-- The converter's whole time resolution for the time substring: the strict
format loop, then the loose manual fallback, then the empty string (threaded
reference date unused, as for dates). -/
def resolveTimeOpt (_ref : JsDate) (s : String) : Option JsDate :=
  match strictTime s with
  | some t => some t
  | none =>
    match looseTime s with
    | some (h, m, se) => some (manualTime h m se)
    | none => none

/-!
### The converter pipeline
-/

/-- A dynamic cell value as it flows through the converter:
a string, a JS number, or a JS `Date`. -/
inductive CellVal where
  | str (s : String)
  | num (n : JsNum)
  | date (d : JsDate)
deriving DecidableEq, Repr

/-- `typeof v === 'string'`. -/
def CellVal.isStr : CellVal → Bool
  | .str _ => true
  | _ => false

/-- `xlsx` cell type tags: `'s'` (text), `'n'` (numeric), `'d'` (date). -/
inductive CType where
  | s
  | n
  | d
deriving DecidableEq, Repr

/-- A worksheet cell: value, type tag, optional display format (`.z`), and
the font size of its style (`.s.font.sz`). -/
structure Cell where
  v : CellVal
  t : CType
  z : Option String
  fontSz : Option Nat
deriving DecidableEq, Repr

/-- `XLSX.utils.aoa_to_sheet` cell construction (with `cellDates: true`):
strings become text cells, numbers numeric cells, `Date`s date cells; no
format, no style. -/
def mkCell (v : CellVal) : Cell :=
  { v := v
    t := match v with
         | .str _ => .s
         | .num _ => .n
         | .date _ => .d
    z := none
    fontSz := none }

/-- The first settings of the formatting loop: `cell.s.font.sz = 10`. -/
def styleOnly (c : Cell) : Cell :=
  { c with fontSz := some 10 }

/-- The per-row typed result (`processed` element) of step 3 of the
converter, field for field in source order. -/
structure Record where
  dateVal : CellVal
  timeVal : CellVal
  mins : CellVal
  secs : CellVal
  title : String
  copy : String
  composer : String
  artist : String
  album : String
  pub : String
  year : String
deriving DecidableEq, Repr

/-- The recognized-column indices resolved from the header row
(`-1` in the source is `none` here). -/
structure Indices where
  dtI : Option Nat
  durI : Option Nat
  artistI : Option Nat
  titleI : Option Nat
  albumI : Option Nat
  composerI : Option Nat
  yearI : Option Nat
  pubI : Option Nat
  copyI : Option Nat
deriving DecidableEq, Repr

/-- `idxMap` lookup: the header loop writes `idxMap[h.toLowerCase()] = i` in
ascending order of `i`, so for a duplicated name the last index wins. -/
def idxOfAux (name : String) : Nat → List String → Option Nat
  | _, [] => none
  | i, h :: t =>
    match idxOfAux name (i + 1) t with
    | some j => some j
    | none => if jsToLower h = name then some i else none

/-- Index of the last header whose lower-cased text equals `name`. -/
def idxOf (headers : List String) (name : String) : Option Nat :=
  idxOfAux name 0 headers

/-- Build the `Indices` from the (already trimmed) header row; `titleI`
falls back from `title played` to `title` via `??`. -/
def mkIndices (headers : List String) : Indices :=
  { dtI := idxOf headers "date/time played"
    durI := idxOf headers "duration"
    artistI := idxOf headers "artist"
    titleI := (idxOf headers "title played").orElse (fun _ => idxOf headers "title")
    albumI := idxOf headers "album"
    composerI := idxOf headers "composer"
    yearI := idxOf headers "year"
    pubI := idxOf headers "publisher"
    copyI := idxOf headers "copyright" }

/-- `i !== -1 ? row[i] : ''` on a (padded) row of strings. -/
def fieldOf (i : Option Nat) (row : List String) : String :=
  match i with
  | some k => row.getD k ""
  | none => ""

/-- The split `full.includes(' ') ? full.split(/ (.+)/) : [full]` with
destructuring `[dateStr, timeStr = '']`: the regex matches at the first
space that is followed by at least one non-line-terminator character; the
captured group stops at a line terminator and any remainder after the match
is dropped by the destructuring.  If the regex does not match, the whole
text is the date part and the time part is empty. -/
def splitDT (full : String) : String × String :=
  if full.toList.contains ' ' then
    match go full.toList with
    | some (d, t) => (d.asString, t.asString)
    | none => (full, "")
  else (full, "")
where
  /-- A character the regex `.` matches. -/
  notLineTerm (c : Char) : Bool :=
    ¬ (c = '\n' ∨ c = '\r' ∨ c = ' ' ∨ c = ' ')
  /-- Find the first position where ` (.+)` matches. -/
  go : List Char → Option (List Char × List Char)
  | [] => none
  | c :: rest =>
    if c = ' ' ∧ (rest.headD '\n' |> notLineTerm) then
      some ([], rest.takeWhile notLineTerm)
    else
      (go rest).map (fun p => (c :: p.1, p.2))

/-- Step 3 date/time handling for one row: when the `Date/Time Played`
column is present, trim it, split date/time, and resolve both parts
(parse-failure fallbacks included); otherwise both stay `''`. -/
def resolveDT (ref : JsDate) (dtI : Option Nat) (row : List String) :
    CellVal × CellVal :=
  match dtI with
  | none => (.str "", .str "")
  | some k =>
    let full := jsTrim (row.getD k "")
    let (dateStr, timeStr) := splitDT full
    let dateVal : CellVal :=
      match resolveDate ref dateStr with
      | some d => .date d
      | none => .str dateStr
    let timeVal : CellVal :=
      match resolveTimeOpt ref timeStr with
      | some t => .date t
      | none => .str ""
    (dateVal, timeVal)

/-- Step 3 duration handling: trim, split on `:`, convert each part with
`Number`; two non-NaN parts are minutes/seconds, three are
hours/minutes/seconds with hours folded into minutes, anything else leaves
both blank. -/
def parseDuration (txt : String) : CellVal × CellVal :=
  match (jsStrSplit ':' (jsTrim txt)).map jsNumber with
  | [a, b] =>
    if a.isNaN || b.isNaN then (.str "", .str "")
    else (.num a, .num b)
  | [a, b, c] =>
    if a.isNaN || b.isNaN || c.isNaN then (.str "", .str "")
    else (.num (jsAdd (jsMul a (.val 60)) b), .num c)
  | _ => (.str "", .str "")

/-- Duration handling including column presence. -/
def resolveDur (durI : Option Nat) (row : List String) : CellVal × CellVal :=
  match durI with
  | none => (.str "", .str "")
  | some k => parseDuration (row.getD k "")

/-- Step 3 for one (padded) data row. -/
def processRow (ref : JsDate) (ix : Indices) (row : List String) : Record :=
  let dt := resolveDT ref ix.dtI row
  let du := resolveDur ix.durI row
  { dateVal := dt.1
    timeVal := dt.2
    mins := du.1
    secs := du.2
    title := fieldOf ix.titleI row
    copy := fieldOf ix.copyI row
    composer := fieldOf ix.composerI row
    artist := fieldOf ix.artistI row
    album := fieldOf ix.albumI row
    pub := fieldOf ix.pubI row
    year := fieldOf ix.yearI row }

/-- Accessor for a record field named by the `key` of a `columnMapping`
entry. -/
inductive FieldKey where
  | dateVal
  | timeVal
  | mins
  | secs
  | title
  | copy
  | composer
  | artist
  | album
  | pub
  | year
deriving DecidableEq, Repr

/-- `(r as any)[c.key]` for the record fields of the mapping. -/
def recordGet (r : Record) : FieldKey → CellVal
  | .dateVal => r.dateVal
  | .timeVal => r.timeVal
  | .mins => r.mins
  | .secs => r.secs
  | .title => .str r.title
  | .copy => .str r.copy
  | .composer => .str r.composer
  | .artist => .str r.artist
  | .album => .str r.album
  | .pub => .str r.pub
  | .year => .str r.year

/-- Step 4: the fixed 18-entry output schema, verbatim from the source. -/
def columnMapping : List (String × Option FieldKey) :=
  [("DATA DIFUZARII", some .dateVal),
   ("NUMELE EMISIUNII", none),
   ("ORA DIFUZARII", some .timeVal),
   ("MINUTE DIFUZATE", some .mins),
   ("SECUNDE DIFUZATE", some .secs),
   ("TITLUL PIESEI", some .title),
   ("AUTOR MUZICA", some .copy),
   ("AUTOR TEXT", some .composer),
   ("ARTIST", some .artist),
   ("ORCHESTRA, FORMATIE, GRUP", none),
   ("NR. DE ARTISTI", none),
   ("ALBUM", some .album),
   ("NUMAR CATALOG", none),
   ("LABEL", none),
   ("PRODUCATOR", some .pub),
   ("TARA", none),
   ("ANUL INREGISTRARII", some .year),
   ("TIPUL INREGISTRARII", none)]

/-- The 18 output header labels. -/
def hdrLabels : List String := columnMapping.map Prod.fst

/-- Step 5 row building: bound entries emit the record field, unbound
entries an empty string. -/
def buildRow (r : Record) : List CellVal :=
  columnMapping.map (fun c =>
    match c.2 with
    | some k => recordGet r k
    | none => .str "")

/-- Step 6 per-cell formatting of a data-row cell (the loop body after the
`R === range.s.r` header skip): font size, then the three sequential
label-guarded conversions. -/
def formatDataCell (label : String) (c0 : Cell) : Cell :=
  let c1 := styleOnly c0
  let c2 :=
    if label = "DATA DIFUZARII" then
      match c1.v with
      | .date d => { c1 with v := .num (.val (dateSerialOf d)), t := .n, z := some "mm/dd/yyyy" }
      | _ => c1
    else c1
  let c3 :=
    if label = "ORA DIFUZARII" then
      match c2.v with
      | .date d => { c2 with v := .num (.val (timeSerialOf d)), t := .n, z := some "hh:mm:ss" }
      | _ => c2
    else c2
  if label = "MINUTE DIFUZATE" ∨ label = "SECUNDE DIFUZATE" then
    match c3.v with
    | .num _ => { c3 with t := .n, z := some "0" }
    | _ => c3
  else c3

/-- Format a data row, tracking the column index to fetch the header label
(`aoa[0][C]` in the source). -/
def fmtDataRowAux (C : Nat) : List Cell → List Cell
  | [] => []
  | c :: cs => formatDataCell (hdrLabels.getD C "") c :: fmtDataRowAux (C + 1) cs

/-- Format a data row starting at column 0. -/
def fmtDataRow (row : List Cell) : List Cell := fmtDataRowAux 0 row

/-- Step 6 grid loop: the header row only receives the font style
(`continue` before any conversion); every other row is converted per cell. -/
def fmtGrid : List (List Cell) → List (List Cell)
  | [] => []
  | r0 :: rest => r0.map styleOnly :: rest.map fmtDataRow

/-- Width of the sheet range produced from a parsed CSV: the longest row. -/
def tableWidth (t : List (List String)) : Nat :=
  t.foldr (fun r acc => max r.length acc) 0

/-- `sheet_to_json(ws, { header: 1, defval: '' })` pads every row with `''`
up to the sheet range width. -/
def padTo (w : Nat) (row : List String) : List String :=
  row ++ List.replicate (w - row.length) ""

/-- The trimmed header row (`raw[0].map(h => String(h).trim())`). -/
def headerOf (t : List (List String)) : List String :=
  (padTo (tableWidth t) (t.headD [])).map jsTrim

/-- Recognized-column indices of a table. -/
def indicesOf (t : List (List String)) : Indices :=
  mkIndices (headerOf t)

/-- The processed records of the data rows of a table. -/
def recordsOf (ref : JsDate) (t : List (List String)) : List Record :=
  (t.tail.map (padTo (tableWidth t))).map (processRow ref (indicesOf t))

/-- Step 5 sheet: the header labels over the built data rows, each value
turned into a cell by `aoa_to_sheet`. -/
def sheetOf (ref : JsDate) (t : List (List String)) : List (List Cell) :=
  ((columnMapping.map (fun c => CellVal.str c.1)) ::
    (recordsOf ref t).map buildRow).map (List.map mkCell)

/-- The fully formatted grid of a (non-empty) table. -/
def gridOf (ref : JsDate) (t : List (List String)) : List (List Cell) :=
  fmtGrid (sheetOf ref t)

/-- `convertCsvToXls` from the parsed table on: the only failure is the
empty-table check; otherwise the formatted grid is produced (the `xlsx`
writer then serializes it unchanged). -/
def convertTable (ref : JsDate) (t : List (List String)) :
    Except String (List (List Cell)) :=
  if t = [] then .error "CSV data is empty or invalid."
  else .ok (gridOf ref t)

/-- Turn `\r\n` and bare `\r` into `\n`. -/
def normNewlines : List Char → List Char
  | [] => []
  | '\r' :: '\n' :: r => '\n' :: normNewlines r
  | '\r' :: r => '\n' :: normNewlines r
  | c :: r => c :: normNewlines r

/-- The rows of the raw text: normalize line endings, drop trailing blank
lines, split rows on `;`. -/
def csvRows (csv : String) : List (List String) :=
  (((splitOnChar '\n' (normNewlines csv.toList)).reverse.dropWhile
      (· = [])).reverse).map (fun l => (splitOnChar ';' l).map List.asString)

/-- `XLSX.read(csv, { type: 'string', FS: ';' })` +
`sheet_to_json(ws, { header: 1, defval: '' })` for plain text content.  The
reader always delivers at least one row: the parsed sheet's range is always
set (at least `A1:A1`) and blank rows are kept under `header: 1`, so empty
or blank text yields a single blank row — which makes the converter's
zero-row guard unreachable for text input.  (Quoted fields and the reader's
scalar coercions are not modelled; cells stay raw text.) -/
def csvParse (csv : String) : List (List String) :=
  match csvRows csv with
  | [] => [[""]]
  | r :: rs => r :: rs

/-- The whole converter on the raw CSV text, with the wall-clock reference
date (`new Date()`) as explicit second argument. -/
def convertCsvToXls (csv : String) (now : JsDate) :
    Except String (List (List Cell)) :=
  convertTable now (csvParse csv)

/-!
### Helper characterizations of the grid
-/

/-- A styled text cell (what an unconverted string value becomes). -/
def textCell (s : String) : Cell :=
  { v := .str s, t := .s, z := none, fontSz := some 10 }

/-- What a `DATA DIFUZARII` data cell becomes: date values turn into the
date serial with format `mm/dd/yyyy`, anything else is only styled. -/
def cellDATA : CellVal → Cell
  | .date d => { v := .num (.val (dateSerialOf d)), t := .n, z := some "mm/dd/yyyy", fontSz := some 10 }
  | v => styleOnly (mkCell v)

/-- What an `ORA DIFUZARII` data cell becomes. -/
def cellORA : CellVal → Cell
  | .date d => { v := .num (.val (timeSerialOf d)), t := .n, z := some "hh:mm:ss", fontSz := some 10 }
  | v => styleOnly (mkCell v)

/-- What a `MINUTE DIFUZATE`/`SECUNDE DIFUZATE` data cell becomes. -/
def cellNUM : CellVal → Cell
  | .num q => { v := .num q, t := .n, z := some "0", fontSz := some 10 }
  | v => styleOnly (mkCell v)

/-- The formatted output row of one processed record. -/
def outRow (rec : Record) : List Cell :=
  fmtDataRow ((buildRow rec).map mkCell)

theorem outRow_eq (rec : Record) :
    outRow rec =
      [cellDATA rec.dateVal, textCell "", cellORA rec.timeVal,
       cellNUM rec.mins, cellNUM rec.secs, textCell rec.title,
       textCell rec.copy, textCell rec.composer, textCell rec.artist,
       textCell "", textCell "", textCell rec.album, textCell "",
       textCell "", textCell rec.pub, textCell "", textCell rec.year,
       textCell ""] := by
  rcases rec with ⟨dv, tv, mi, se, _, _, _, _, _, _, _⟩
  cases dv <;> cases tv <;> cases mi <;> cases se <;> rfl

theorem grid_eq (ref : JsDate) (t : List (List String)) :
    gridOf ref t = (hdrLabels.map textCell) :: (recordsOf ref t).map outRow := by
  show fmtGrid (((columnMapping.map (fun c => CellVal.str c.1)) ::
      (recordsOf ref t).map buildRow).map (List.map mkCell)) = _
  rw [List.map_cons]
  show (List.map mkCell (columnMapping.map (fun c => CellVal.str c.1))).map styleOnly ::
      (((recordsOf ref t).map buildRow).map (List.map mkCell)).map fmtDataRow = _
  congr 1
  simp [List.map_map, outRow, Function.comp, fmtDataRow]

theorem convertTable_ok {ref : JsDate} {t : List (List String)}
    {g : List (List Cell)} (h : convertTable ref t = .ok g) :
    ¬ t = [] ∧ g = gridOf ref t := by
  by_cases ht : t = [] <;> simp [convertTable, ht] at h
  exact ⟨ht, h.symm⟩

theorem cellDATA_fontSz (v : CellVal) : (cellDATA v).fontSz = some 10 := by
  cases v <;> rfl

theorem cellORA_fontSz (v : CellVal) : (cellORA v).fontSz = some 10 := by
  cases v <;> rfl

theorem cellNUM_fontSz (v : CellVal) : (cellNUM v).fontSz = some 10 := by
  cases v <;> rfl

theorem parseDuration_two (t : String) (a b : JsNum)
    (hmap : (jsStrSplit ':' (jsTrim t)).map jsNumber = [a, b])
    (ha : a.isNaN = false) (hb : b.isNaN = false) :
    parseDuration t = (.num a, .num b) := by
  unfold parseDuration
  rw [hmap]
  simp [ha, hb]

theorem parseDuration_three (t : String) (a b c : JsNum)
    (hmap : (jsStrSplit ':' (jsTrim t)).map jsNumber = [a, b, c])
    (ha : a.isNaN = false) (hb : b.isNaN = false) (hc : c.isNaN = false) :
    parseDuration t = (.num (jsAdd (jsMul a (.val 60)) b), .num c) := by
  unfold parseDuration
  rw [hmap]
  simp [ha, hb, hc]

theorem parseDuration_blank (t : String)
    (h : (((jsStrSplit ':' (jsTrim t)).map jsNumber).length ≠ 2 ∧
          ((jsStrSplit ':' (jsTrim t)).map jsNumber).length ≠ 3) ∨
         ∃ p ∈ (jsStrSplit ':' (jsTrim t)).map jsNumber, p = JsNum.nan) :
    parseDuration t = (.str "", .str "") := by
  rcases hsh : (jsStrSplit ':' (jsTrim t)).map jsNumber with
    _ | ⟨a, _ | ⟨b, _ | ⟨c, rest⟩⟩⟩
  · unfold parseDuration; rw [hsh]
  · unfold parseDuration; rw [hsh]
  · rw [hsh] at h
    unfold parseDuration; rw [hsh]
    rcases h with ⟨h2, -⟩ | ⟨p, hp, rfl⟩
    · simp at h2
    · simp only [List.mem_cons, List.not_mem_nil, or_false] at hp
      rcases hp with rfl | rfl <;> simp [JsNum.isNaN]
  · rcases rest with _ | ⟨d, rest⟩
    · rw [hsh] at h
      unfold parseDuration; rw [hsh]
      rcases h with ⟨-, h3⟩ | ⟨p, hp, rfl⟩
      · simp at h3
      · simp only [List.mem_cons, List.not_mem_nil, or_false] at hp
        rcases hp with rfl | rfl | rfl <;> simp [JsNum.isNaN]
    · unfold parseDuration; rw [hsh]

theorem idxOfAux_none (name : String) :
    ∀ (i : Nat) (l : List String),
    (∀ h ∈ l, jsToLower h ≠ name) → idxOfAux name i l = none := by
  intro i l
  induction l generalizing i with
  | nil => intro _; rfl
  | cons hd tl ih =>
    intro hnone
    have h1 : idxOfAux name (i + 1) tl = none :=
      ih (i + 1) (fun x hx => hnone x (List.mem_cons_of_mem _ hx))
    unfold idxOfAux
    rw [h1]
    simp [hnone hd (List.mem_cons_self _ _)]

/-!
### Claim theorems
-/

/-- Claim C1, counterexample: the claim asserts the tenth header label is the
literal `ORCHESTRA FORMATIE GRUP`; running the converter on the concrete
input `";"` shows the emitted label is `ORCHESTRA, FORMATIE, GRUP` (with
commas), a different string. -/
theorem C1_header_label_counterexample :
    ((convertCsvToXls ";" ⟨2024, 1, 1, 0⟩).toOption.bind
        (fun g => g.head?.bind (fun r => (r[9]?).map Cell.v)))
      = some (.str "ORCHESTRA, FORMATIE, GRUP") ∧
    CellVal.str "ORCHESTRA, FORMATIE, GRUP" ≠ CellVal.str "ORCHESTRA FORMATIE GRUP" :=
  ⟨rfl, by decide⟩

/-- Claim C1 (amended: the tenth header label is `ORCHESTRA, FORMATIE, GRUP`,
with commas): for every input accepted by the converter, the header row is
exactly the 18 fixed uppercase labels in order, and every data row is built
from the fixed bindings — column 1 the parsed date, 3 the parsed time, 4 the
minutes, 5 the seconds, 6 the title, 7 the copyright field, 8 the composer
field, 9 the artist, 12 the album, 15 the publisher, 17 the year — with
every unbound column an empty cell. -/
theorem C1_output_schema :
    ∀ (ref : JsDate) (t : List (List String)) (g : List (List Cell)),
    convertTable ref t = .ok g →
    g.head? = some
      (["DATA DIFUZARII", "NUMELE EMISIUNII", "ORA DIFUZARII", "MINUTE DIFUZATE",
        "SECUNDE DIFUZATE", "TITLUL PIESEI", "AUTOR MUZICA", "AUTOR TEXT", "ARTIST",
        "ORCHESTRA, FORMATIE, GRUP", "NR. DE ARTISTI", "ALBUM", "NUMAR CATALOG",
        "LABEL", "PRODUCATOR", "TARA", "ANUL INREGISTRARII",
        "TIPUL INREGISTRARII"].map textCell) ∧
    ∀ (i : Nat) (rec : Record), (recordsOf ref t)[i]? = some rec →
      g[i + 1]? = some
        [cellDATA rec.dateVal, textCell "", cellORA rec.timeVal, cellNUM rec.mins,
         cellNUM rec.secs, textCell rec.title, textCell rec.copy,
         textCell rec.composer, textCell rec.artist, textCell "", textCell "",
         textCell rec.album, textCell "", textCell "", textCell rec.pub,
         textCell "", textCell rec.year, textCell ""] := by
  intro ref t g h
  obtain ⟨-, rfl⟩ := convertTable_ok h
  rw [grid_eq]
  refine ⟨rfl, ?_⟩
  intro i rec hrec
  simp [List.getElem?_map, hrec, outRow_eq]

/-- Witness for C1 at a concrete input. -/
theorem C1_output_schema_witness :
    (gridOf ⟨2024, 1, 1, 0⟩ [["Artist"], ["Abba"]]).head? = some
      (["DATA DIFUZARII", "NUMELE EMISIUNII", "ORA DIFUZARII", "MINUTE DIFUZATE",
        "SECUNDE DIFUZATE", "TITLUL PIESEI", "AUTOR MUZICA", "AUTOR TEXT", "ARTIST",
        "ORCHESTRA, FORMATIE, GRUP", "NR. DE ARTISTI", "ALBUM", "NUMAR CATALOG",
        "LABEL", "PRODUCATOR", "TARA", "ANUL INREGISTRARII",
        "TIPUL INREGISTRARII"].map textCell) ∧
    (gridOf ⟨2024, 1, 1, 0⟩ [["Artist"], ["Abba"]])[1]? = some
      [cellDATA (.str ""), textCell "", cellORA (.str ""), cellNUM (.str ""),
       cellNUM (.str ""), textCell "", textCell "", textCell "", textCell "Abba",
       textCell "", textCell "", textCell "", textCell "", textCell "", textCell "",
       textCell "", textCell "", textCell ""] :=
  ⟨(C1_output_schema ⟨2024, 1, 1, 0⟩ [["Artist"], ["Abba"]] _ rfl).1,
   (C1_output_schema ⟨2024, 1, 1, 0⟩ [["Artist"], ["Abba"]] _ rfl).2 0
     ⟨.str "", .str "", .str "", .str "", "", "", "", "Abba", "", "", ""⟩ (by decide)⟩

/-- Claim C8: every cell of the output grid, the header row included,
receives font size 10 in its style, irrespective of cell type or
conversions; no cell of the grid is skipped. -/
theorem C8_uniform_font :
    ∀ (ref : JsDate) (t : List (List String)) (g : List (List Cell)),
    convertTable ref t = .ok g →
    ∀ row ∈ g, ∀ c ∈ row, c.fontSz = some 10 := by
  intro ref t g h row hrow c hc
  obtain ⟨-, rfl⟩ := convertTable_ok h
  rw [grid_eq] at hrow
  rcases List.mem_cons.mp hrow with rfl | hrow
  · revert hc
    revert c
    decide
  · rcases List.mem_map.mp hrow with ⟨rec, -, rfl⟩
    rw [outRow_eq] at hc
    simp only [List.mem_cons, List.not_mem_nil, or_false] at hc
    rcases hc with rfl | rfl | rfl | rfl | rfl | rfl | rfl | rfl | rfl | rfl | rfl |
      rfl | rfl | rfl | rfl | rfl | rfl | rfl <;>
      first
        | exact cellDATA_fontSz _
        | exact cellORA_fontSz _
        | exact cellNUM_fontSz _
        | rfl

/-- Witness for C8 at a concrete input. -/
theorem C8_uniform_font_witness : (textCell "DATA DIFUZARII").fontSz = some 10 :=
  C8_uniform_font ⟨2024, 1, 1, 0⟩ [["x"]] _ rfl (hdrLabels.map textCell)
    (by rw [grid_eq]; exact List.mem_cons_self _ _)
    (textCell "DATA DIFUZARII") (by decide)

/-- Claim C9: the conversion is deterministic — its result depends only on
the input text, not on the wall-clock reference date (`new Date()`) taken
when parsing, so any (functional) byte serializer produces byte-identical
buffers on identical inputs. -/
theorem C9_deterministic :
    ∀ (writeXls : List (List Cell) → List Nat) (csv : String) (n1 n2 : JsDate),
    (convertCsvToXls csv n1).map writeXls = (convertCsvToXls csv n2).map writeXls := by
  intro wr csv n1 n2
  rfl

/-- Claim C10: header-row cells are never type- or format-converted — for
every accepted input, row 0 consists exactly of the fixed labels as text
cells (`t = s`), with no display format, touched only by the uniform font
styling. -/
theorem C10_header_row_text_only :
    ∀ (ref : JsDate) (t : List (List String)) (g : List (List Cell)),
    convertTable ref t = .ok g →
    g.head? = some (hdrLabels.map textCell) ∧
    ∀ c ∈ hdrLabels.map textCell,
      c.t = CType.s ∧ c.z = none ∧ c.fontSz = some 10 ∧ c.v.isStr = true := by
  intro ref t g h
  obtain ⟨-, rfl⟩ := convertTable_ok h
  rw [grid_eq]
  exact ⟨rfl, by decide⟩

/-- Witness for C10 at a concrete input. -/
theorem C10_header_row_text_only_witness :
    (gridOf ⟨2024, 1, 1, 0⟩ [["Date/Time Played"], ["4/5/2021 1:02:03 PM"]]).head? =
      some (hdrLabels.map textCell) ∧
    ∀ c ∈ hdrLabels.map textCell,
      c.t = CType.s ∧ c.z = none ∧ c.fontSz = some 10 ∧ c.v.isStr = true :=
  C10_header_row_text_only ⟨2024, 1, 1, 0⟩
    [["Date/Time Played"], ["4/5/2021 1:02:03 PM"]] _ rfl

/-- Claim C2: splitting the duration field on `:` gives — exactly 2
non-NaN (`Number`-numeric) parts: minutes = part0, seconds = part1;
exactly 3 non-NaN parts: minutes = part0·60 + part1 (in JS arithmetic),
seconds = part2; any other shape or any NaN part: both blank, with no
abort (the functions are total).  In particular `"75:03"` and `"1:15:03"`
both yield minutes 75 and seconds 3. -/
theorem C2_duration_parsing :
    (∀ (t : String) (a b : JsNum),
       (jsStrSplit ':' (jsTrim t)).map jsNumber = [a, b] →
       a.isNaN = false → b.isNaN = false →
       parseDuration t = (.num a, .num b)) ∧
    (∀ (t : String) (a b c : JsNum),
       (jsStrSplit ':' (jsTrim t)).map jsNumber = [a, b, c] →
       a.isNaN = false → b.isNaN = false → c.isNaN = false →
       parseDuration t = (.num (jsAdd (jsMul a (.val 60)) b), .num c)) ∧
    (∀ t : String,
       ((((jsStrSplit ':' (jsTrim t)).map jsNumber).length ≠ 2 ∧
         ((jsStrSplit ':' (jsTrim t)).map jsNumber).length ≠ 3) ∨
        ∃ p ∈ (jsStrSplit ':' (jsTrim t)).map jsNumber, p = JsNum.nan) →
       parseDuration t = (.str "", .str "")) ∧
    parseDuration "75:03" = (.num (.val 75), .num (.val 3)) ∧
    parseDuration "1:15:03" = (.num (.val 75), .num (.val 3)) :=
  ⟨parseDuration_two, parseDuration_three, parseDuration_blank,
   by with_unfolding_all rfl, by with_unfolding_all rfl⟩

/-- Witness for C2 at a concrete input. -/
theorem C2_duration_parsing_witness :
    parseDuration "7:08" = (.num (.val 7), .num (.val 8)) :=
  C2_duration_parsing.1 "7:08" (.val 7) (.val 8) (by with_unfolding_all rfl)
    rfl rfl

theorem csvParse_ne_nil (csv : String) : csvParse csv ≠ [] := by
  unfold csvParse
  rcases csvRows csv with _ | ⟨r, rs⟩ <;> simp

/-- Claim C6 (code bug at the empty input): the claim — and the spec, and
the guard the converter opens with — promise that a zero-row parsed table is
the single fatal condition and that empty input therefore aborts; but the
CSV reader always delivers at least one (possibly blank) row, so that guard
is unreachable and the conversion never errors on any text input.  On the
claimed failing input `""` it succeeds and emits a headers-only sheet.  The
field-level degradation half of the claim does hold: without a `Duration`
header the minute/second cells are blank, shown here at a concrete input. -/
theorem C6_empty_input_no_error :
    (∀ (csv : String) (now : JsDate), ∃ g, convertCsvToXls csv now = .ok g) ∧
    csvParse "" = [[""]] ∧
    convertCsvToXls "" ⟨2024, 1, 1, 0⟩ = .ok [hdrLabels.map textCell] ∧
    ((gridOf ⟨2024, 1, 1, 0⟩ [["Artist"], ["Abba"]])[1]?.bind (fun r => r[3]?)) =
      some (textCell "") ∧
    ((gridOf ⟨2024, 1, 1, 0⟩ [["Artist"], ["Abba"]])[1]?.bind (fun r => r[4]?)) =
      some (textCell "") := by
  refine ⟨?_, by decide, by rfl, by decide, by decide⟩
  intro csv now
  refine ⟨gridOf now (csvParse csv), ?_⟩
  simp [convertCsvToXls, convertTable, csvParse_ne_nil csv]

/-- Claim C7, counterexample: for the duration field `"1.5:03"` the emitted
`MINUTE DIFUZATE` cell holds the number 3/2, which is neither blank nor an
integer — refuting the claim that these cells are always integer or blank. -/
theorem C7_integer_counterexample :
    ((gridOf ⟨2024, 1, 1, 0⟩ [["Duration"], ["1.5:03"]])[1]?.bind
        (fun r => r[3]?)) =
      some { v := .num (.val (3 / 2)), t := .n, z := some "0", fontSz := some 10 } ∧
    CellVal.num (.val (3 / 2)) ≠ .str "" ∧
    ¬ ∃ z : ℤ, ((3 / 2 : ℚ)) = (z : ℚ) := by
  refine ⟨by with_unfolding_all rfl, by decide, ?_⟩
  rintro ⟨z, hz⟩
  have hden : ((3 / 2 : ℚ)).den = 2 := by with_unfolding_all rfl
  rw [hz] at hden
  simp [Rat.den_intCast] at hden

/-- Claim C7 (amended: for every input row and every duration field
content, the values emitted in the `MINUTE DIFUZATE` and `SECUNDE DIFUZATE`
cells are each either a number or blank (empty string) — never any other
kind of value; by the `"1.5:03"` counterexample they need not be integers):
the duration stage, and hence the processed record, always yields either two
blanks or two numbers. -/
theorem C7_mins_secs_numeric :
    (∀ t : String,
       parseDuration t = (.str "", .str "") ∨
       ∃ a b : JsNum, parseDuration t = (.num a, .num b)) ∧
    (∀ (ref : JsDate) (ix : Indices) (row : List String),
       ((processRow ref ix row).mins = .str "" ∧
        (processRow ref ix row).secs = .str "") ∨
       ∃ a b : JsNum,
         (processRow ref ix row).mins = .num a ∧
         (processRow ref ix row).secs = .num b) := by
  have h1 : ∀ t : String,
      parseDuration t = (.str "", .str "") ∨
      ∃ a b : JsNum, parseDuration t = (.num a, .num b) := by
    intro t
    rcases hsh : (jsStrSplit ':' (jsTrim t)).map jsNumber with
      _ | ⟨a, _ | ⟨b, _ | ⟨c, _ | ⟨d, rest⟩⟩⟩⟩
    · left; unfold parseDuration; rw [hsh]
    · left; unfold parseDuration; rw [hsh]
    · cases hna : a.isNaN <;> cases hnb : b.isNaN
      · right
        exact ⟨a, b, parseDuration_two t a b hsh hna hnb⟩
      all_goals
        left
        unfold parseDuration
        rw [hsh]
        simp [hna, hnb]
    · cases hna : a.isNaN <;> cases hnb : b.isNaN <;> cases hnc : c.isNaN
      · right
        exact ⟨_, _, parseDuration_three t a b c hsh hna hnb hnc⟩
      all_goals
        left
        unfold parseDuration
        rw [hsh]
        simp [hna, hnb, hnc]
    · left; unfold parseDuration; rw [hsh]
  refine ⟨h1, ?_⟩
  intro ref ix row
  cases hdi : ix.durI with
  | none =>
    left
    constructor <;> simp only [processRow, resolveDur, hdi]
  | some k =>
    have hm : (processRow ref ix row).mins = (parseDuration (row.getD k "")).1 := by
      simp only [processRow, resolveDur, hdi]
    have hs : (processRow ref ix row).secs = (parseDuration (row.getD k "")).2 := by
      simp only [processRow, resolveDur, hdi]
    rcases h1 (row.getD k "") with hb | ⟨a, b, hab⟩
    · left
      rw [hm, hs, hb]
      exact ⟨rfl, rfl⟩
    · right
      exact ⟨a, b, by rw [hm, hab], by rw [hs, hab]⟩

theorem datePick_eq (L : List (String → Option JsDate)) (s : String) :
    datePick L s =
      ((L.filterMap (fun p => p s)).filter (fun d => 1900 < d.year)).head? := by
  induction L with
  | nil => rfl
  | cons p ps ih =>
    unfold datePick
    cases hp : p s with
    | none => simp [List.filterMap_cons, hp, ih]
    | some d =>
      by_cases hy : 1900 < d.year
      · simp [List.filterMap_cons, hp, hy, List.filter_cons]
      · simp [List.filterMap_cons, hp, hy, List.filter_cons, ih]

theorem datePick_year {L : List (String → Option JsDate)} {s : String}
    {d : JsDate} (h : datePick L s = some d) : 1900 < d.year := by
  rw [datePick_eq] at h
  rcases hL : (L.filterMap (fun p => p s)).filter (fun d => 1900 < d.year) with
    _ | ⟨x, xs⟩
  · rw [hL] at h
    cases h
  · rw [hL] at h
    have hx : x ∈ (L.filterMap (fun p => p s)).filter
        (fun d => 1900 < d.year) := by
      rw [hL]
      exact List.mem_cons_self x xs
    have hgood := (List.mem_filter.mp hx).2
    cases h
    simpa using hgood

theorem findSome?_eq_head?_filterMap {α β : Type} (f : α → Option β)
    (L : List α) : L.findSome? f = (L.filterMap f).head? := by
  induction L with
  | nil => rfl
  | cons a l ih =>
    rw [List.findSome?_cons, List.filterMap_cons]
    cases hfa : f a with
    | none => exact ih
    | some b => rfl

/-- Claim C3: the date substring is tried against the five patterns in
order, and the value taken is the first parse that succeeds with a year
strictly above 1900 (formalized: the chosen value is the head of the
successful parses filtered by the year guard, and any chosen value passed
the guard); when no pattern qualifies, the record keeps the raw substring,
and the `DATA DIFUZARII` cell stays a text cell with exactly that
substring, never a numeric serial. -/
theorem C3_date_parse_fallback :
    (∀ s : String,
       datePick dateFmtFns s =
         ((dateFmtFns.filterMap (fun p => p s)).filter
            (fun d => 1900 < d.year)).head?) ∧
    (∀ (ref : JsDate) (s : String) (d : JsDate),
       resolveDate ref s = some d → 1900 < d.year) ∧
    (∀ (ref : JsDate) (ix : Indices) (row : List String) (k : Nat),
       ix.dtI = some k →
       resolveDate ref (splitDT (jsTrim (row.getD k ""))).1 = none →
       (processRow ref ix row).dateVal =
         .str (splitDT (jsTrim (row.getD k ""))).1 ∧
       cellDATA (.str (splitDT (jsTrim (row.getD k ""))).1) =
         textCell (splitDT (jsTrim (row.getD k ""))).1) := by
  refine ⟨fun s => datePick_eq _ s, fun ref s d h => datePick_year h, ?_⟩
  intro ref ix row k hk hnone
  constructor
  · have hn' := hnone
    simp only [List.getD, List.get?_eq_getElem?] at hn'
    simp [processRow, resolveDT, hk, List.getD, hn']
  · rfl

/-- Witness for C3 at the concrete date text `13/45/2020`. -/
theorem C3_date_parse_fallback_witness :
    (processRow ⟨2024, 1, 1, 0⟩
        (indicesOf [["Date/Time Played"], ["13/45/2020 10:00:00"]])
        ["13/45/2020 10:00:00"]).dateVal = .str "13/45/2020" ∧
    cellDATA (.str "13/45/2020") = textCell "13/45/2020" :=
  C3_date_parse_fallback.2.2 ⟨2024, 1, 1, 0⟩
    (indicesOf [["Date/Time Played"], ["13/45/2020 10:00:00"]])
    ["13/45/2020 10:00:00"] 0 (by decide) (by decide)

/-- Claim C4: the time substring is tried against the six patterns in
order (each against the fixed `1970-01-01` reference prefix) and the first
success wins; when all fail, a time is built by splitting on `:` exactly
when the loose `\d{1,2}:\d{1,2}(:\d{1,2})?` pattern matches; otherwise the
time value is the empty string — the resolution is a total function, it
never throws. -/
theorem C4_time_parse_fallback :
    (∀ s : String,
       strictTime s = (timeFmtFns.filterMap (fun p => p s)).head?) ∧
    (∀ (ref : JsDate) (s : String) (t : JsDate),
       strictTime s = some t → resolveTimeOpt ref s = some t) ∧
    (∀ (ref : JsDate) (s : String) (h m se : Nat),
       strictTime s = none → looseTime s = some (h, m, se) →
       resolveTimeOpt ref s = some (manualTime h m se)) ∧
    (∀ (ref : JsDate) (s : String),
       strictTime s = none → looseTime s = none →
       resolveTimeOpt ref s = none) ∧
    (∀ (ref : JsDate) (ix : Indices) (row : List String) (k : Nat),
       ix.dtI = some k →
       (processRow ref ix row).timeVal =
         (match resolveTimeOpt ref (splitDT (jsTrim (row.getD k ""))).2 with
          | some t => CellVal.date t
          | none => CellVal.str "")) := by
  refine ⟨?_, ?_, ?_, ?_, ?_⟩
  · intro s
    exact findSome?_eq_head?_filterMap _ _
  · intro ref s t h
    simp [resolveTimeOpt, h]
  · intro ref s h m se hs hl
    simp [resolveTimeOpt, hs, hl]
  · intro ref s hs hl
    simp [resolveTimeOpt, hs, hl]
  · intro ref ix row k hk
    simp [processRow, resolveDT, hk, List.getD]

/-- Witness for C4 at the concrete time text `25:07:08` (all strict
patterns reject hour 25; the loose fallback rolls it over). -/
theorem C4_time_parse_fallback_witness :
    resolveTimeOpt ⟨2024, 1, 1, 0⟩ "25:07:08" = some (manualTime 25 7 8) :=
  C4_time_parse_fallback.2.2.1 ⟨2024, 1, 1, 0⟩ "25:07:08" 25 7 8
    (by decide) (by decide)

/-- Claim C5: in the finished grid, a parsed date cell is numeric with the
whole-day serial (an integer, days since 1899-12-30) and format
`mm/dd/yyyy`; a parsed time cell is numeric with value
`(h·3600 + m·60 + s) / 86400` and format `hh:mm:ss`; present
minutes/seconds are numeric with integer display format `0`; date text
fallbacks and empty times stay text cells with no conversion. -/
theorem C5_cell_formats :
    ∀ (ref : JsDate) (t : List (List String)) (g : List (List Cell)),
    convertTable ref t = .ok g →
    ∀ (i : Nat) (rec : Record), (recordsOf ref t)[i]? = some rec →
    (∀ d : JsDate, rec.dateVal = .date d →
       (g[i + 1]?.bind (fun r => r[0]?)) =
         some { v := .num (.val (dateSerialOf d)), t := .n,
                z := some "mm/dd/yyyy", fontSz := some 10 } ∧
       ∃ z : ℤ, dateSerialOf d = (z : ℚ)) ∧
    (∀ s : String, rec.dateVal = .str s →
       (g[i + 1]?.bind (fun r => r[0]?)) = some (textCell s)) ∧
    (∀ d : JsDate, rec.timeVal = .date d →
       (g[i + 1]?.bind (fun r => r[2]?)) =
         some { v := .num (.val (timeSerialOf d)), t := .n,
                z := some "hh:mm:ss", fontSz := some 10 } ∧
       timeSerialOf d =
         ((getHoursJ d * 3600 + getMinutesJ d * 60 + getSecondsJ d : Nat) : ℚ)
           / 86400) ∧
    (∀ s : String, rec.timeVal = .str s →
       (g[i + 1]?.bind (fun r => r[2]?)) = some (textCell s)) ∧
    (∀ q : JsNum, rec.mins = .num q →
       (g[i + 1]?.bind (fun r => r[3]?)) =
         some { v := .num q, t := .n, z := some "0", fontSz := some 10 }) ∧
    (∀ s : String, rec.mins = .str s →
       (g[i + 1]?.bind (fun r => r[3]?)) = some (textCell s)) ∧
    (∀ q : JsNum, rec.secs = .num q →
       (g[i + 1]?.bind (fun r => r[4]?)) =
         some { v := .num q, t := .n, z := some "0", fontSz := some 10 }) ∧
    (∀ s : String, rec.secs = .str s →
       (g[i + 1]?.bind (fun r => r[4]?)) = some (textCell s)) := by
  intro ref t g h i rec hrec
  obtain ⟨-, rfl⟩ := convertTable_ok h
  have hG : (gridOf ref t)[i + 1]? = some (outRow rec) := by
    rw [grid_eq]
    simp [List.getElem?_map, hrec]
  refine ⟨?_, ?_, ?_, ?_, ?_, ?_, ?_, ?_⟩
  · intro d hd
    refine ⟨?_, ⟨_, rfl⟩⟩
    rw [hG]
    simp [outRow_eq, hd, cellDATA]
  · intro s hs
    rw [hG]
    simp [outRow_eq, hs, cellDATA, textCell, styleOnly, mkCell]
  · intro d hd
    refine ⟨?_, rfl⟩
    rw [hG]
    simp [outRow_eq, hd, cellORA]
  · intro s hs
    rw [hG]
    simp [outRow_eq, hs, cellORA, textCell, styleOnly, mkCell]
  · intro q hq
    rw [hG]
    simp [outRow_eq, hq, cellNUM]
  · intro s hs
    rw [hG]
    simp [outRow_eq, hs, cellNUM, textCell, styleOnly, mkCell]
  · intro q hq
    rw [hG]
    simp [outRow_eq, hq, cellNUM]
  · intro s hs
    rw [hG]
    simp [outRow_eq, hs, cellNUM, textCell, styleOnly, mkCell]

/-- Witness for C5 on the end-to-end example row
`Abba;Waterloo;4/5/2021 1:02:03 PM;3:45`. -/
theorem C5_cell_formats_witness :
    ((gridOf ⟨2024, 1, 1, 0⟩
        [["Artist", "Title Played", "Date/Time Played", "Duration"],
         ["Abba", "Waterloo", "4/5/2021 1:02:03 PM", "3:45"]])[1]?.bind
      (fun r => r[0]?)) =
      some { v := .num (.val (dateSerialOf ⟨2021, 4, 5, 0⟩)), t := .n,
             z := some "mm/dd/yyyy", fontSz := some 10 } ∧
    dateSerialOf ⟨2021, 4, 5, 0⟩ = 44291 ∧
    ((gridOf ⟨2024, 1, 1, 0⟩
        [["Artist", "Title Played", "Date/Time Played", "Duration"],
         ["Abba", "Waterloo", "4/5/2021 1:02:03 PM", "3:45"]])[1]?.bind
      (fun r => r[2]?)) =
      some { v := .num (.val (timeSerialOf ⟨1970, 1, 1, 46923⟩)), t := .n,
             z := some "hh:mm:ss", fontSz := some 10 } ∧
    timeSerialOf ⟨1970, 1, 1, 46923⟩ = 46923 / 86400 ∧
    ((gridOf ⟨2024, 1, 1, 0⟩
        [["Artist", "Title Played", "Date/Time Played", "Duration"],
         ["Abba", "Waterloo", "4/5/2021 1:02:03 PM", "3:45"]])[1]?.bind
      (fun r => r[3]?)) =
      some { v := .num (.val 3), t := .n, z := some "0", fontSz := some 10 } ∧
    ((gridOf ⟨2024, 1, 1, 0⟩
        [["Artist", "Title Played", "Date/Time Played", "Duration"],
         ["Abba", "Waterloo", "4/5/2021 1:02:03 PM", "3:45"]])[1]?.bind
      (fun r => r[4]?)) =
      some { v := .num (.val 45), t := .n, z := some "0", fontSz := some 10 } :=
  ⟨((C5_cell_formats ⟨2024, 1, 1, 0⟩
      [["Artist", "Title Played", "Date/Time Played", "Duration"],
       ["Abba", "Waterloo", "4/5/2021 1:02:03 PM", "3:45"]]
      (gridOf ⟨2024, 1, 1, 0⟩
        [["Artist", "Title Played", "Date/Time Played", "Duration"],
         ["Abba", "Waterloo", "4/5/2021 1:02:03 PM", "3:45"]]) rfl 0
      ⟨.date ⟨2021, 4, 5, 0⟩, .date ⟨1970, 1, 1, 46923⟩, .num (.val 3),
       .num (.val 45), "Waterloo", "", "", "Abba", "", "", ""⟩
      (by with_unfolding_all rfl)).1 ⟨2021, 4, 5, 0⟩ rfl).1,
   by with_unfolding_all rfl,
   ((C5_cell_formats ⟨2024, 1, 1, 0⟩
      [["Artist", "Title Played", "Date/Time Played", "Duration"],
       ["Abba", "Waterloo", "4/5/2021 1:02:03 PM", "3:45"]]
      (gridOf ⟨2024, 1, 1, 0⟩
        [["Artist", "Title Played", "Date/Time Played", "Duration"],
         ["Abba", "Waterloo", "4/5/2021 1:02:03 PM", "3:45"]]) rfl 0
      ⟨.date ⟨2021, 4, 5, 0⟩, .date ⟨1970, 1, 1, 46923⟩, .num (.val 3),
       .num (.val 45), "Waterloo", "", "", "Abba", "", "", ""⟩
      (by with_unfolding_all rfl)).2.2.1 ⟨1970, 1, 1, 46923⟩ rfl).1,
   by with_unfolding_all rfl,
   (C5_cell_formats ⟨2024, 1, 1, 0⟩
      [["Artist", "Title Played", "Date/Time Played", "Duration"],
       ["Abba", "Waterloo", "4/5/2021 1:02:03 PM", "3:45"]]
      (gridOf ⟨2024, 1, 1, 0⟩
        [["Artist", "Title Played", "Date/Time Played", "Duration"],
         ["Abba", "Waterloo", "4/5/2021 1:02:03 PM", "3:45"]]) rfl 0
      ⟨.date ⟨2021, 4, 5, 0⟩, .date ⟨1970, 1, 1, 46923⟩, .num (.val 3),
       .num (.val 45), "Waterloo", "", "", "Abba", "", "", ""⟩
      (by with_unfolding_all rfl)).2.2.2.2.1 (.val 3) rfl,
   (C5_cell_formats ⟨2024, 1, 1, 0⟩
      [["Artist", "Title Played", "Date/Time Played", "Duration"],
       ["Abba", "Waterloo", "4/5/2021 1:02:03 PM", "3:45"]]
      (gridOf ⟨2024, 1, 1, 0⟩
        [["Artist", "Title Played", "Date/Time Played", "Duration"],
         ["Abba", "Waterloo", "4/5/2021 1:02:03 PM", "3:45"]]) rfl 0
      ⟨.date ⟨2021, 4, 5, 0⟩, .date ⟨1970, 1, 1, 46923⟩, .num (.val 3),
       .num (.val 45), "Waterloo", "", "", "Abba", "", "", ""⟩
      (by with_unfolding_all rfl)).2.2.2.2.2.2.1 (.val 45) rfl⟩

end RadioDJ
